import Mathlib

/-!
Shallow embedding of `src/src/vm/perfmap.cpp` (the CoreCLR perf-map writer:
class `PerfMap` and its subclass `NativeImagePerfMap`), together with theorems
checking the natural-language specification against it.

Modelling conventions:
- machine integers (`PCODE`, `SIZE_T`, `ULONG`) are `Nat` with explicit
  reductions modulo `2 ^ 32` / `2 ^ 64` exactly where the source truncates;
- the platform write primitive (`CFileStream::Write`) reports how many bytes
  it actually wrote; that outcome is threaded as an explicit `shortBy`
  parameter (`shortBy = inCount - outCount`, `0` for a full write);
- fallible external collaborators (temp-path resolution, file creation, GUID
  rendering) are threaded as explicit `Bool`/`Option` inputs;
- the observable output is the `file` field: the bytes appended to the map
  file so far.
-/

/-- Address-format mode selected by the `CROSSGEN_COMPILE` build flag:
`FMT_CODE_ADDR` is `"%p"` (native pointer hex) in live builds and `"%08x"`
(fixed eight hex digits) in crossgen builds. The spec models this build flag
as a configuration value so both modes are testable. -/
inductive AddrFormat where
  | native
  | fixed32
  deriving DecidableEq

/-- Lowercase hexadecimal rendering of a natural number, with no prefix and
no padding (the rendering of C printf `%x` for values that fit). -/
def toHex (n : Nat) : String := String.mk (Nat.toDigits 16 n)

/-- Modelled from the spec: the printf `%x` conversion is rendered by
`SString::Printf`, which is not under `src/`; per C varargs semantics (and
spec section 6) it consumes its argument as a 32-bit unsigned value, so the
64-bit `size_t` code size is reduced modulo `2 ^ 32` before rendering. -/
def hex32 (n : Nat) : String := toHex (n % 2 ^ 32)

/-- Modelled from the spec: the rendering of `FMT_CODE_ADDR` is done by
`SString::Printf` / the PAL, which are not under `src/`. Per spec section 6
an address prints as bare hex with no `0x` prefix: `"%p"` (live mode) prints
the pointer value, `"%08x"` (crossgen mode) prints the low 32 bits zero-padded
to eight hex digits. -/
def formatAddr : AddrFormat → Nat → String
  | AddrFormat.native, p => toHex p
  | AddrFormat.fixed32, p =>
      let s := toHex (p % 2 ^ 32)
      String.mk (List.replicate (8 - s.length) '0') ++ s

/-- Word width of `PCODE` / `SIZE_T` pointer arithmetic on a 64-bit host. -/
def ptrW : Nat := 2 ^ 64

/-- C unsigned pointer subtraction `a - b`, wrapping modulo `2 ^ 64`
(used in `LogPreCompiledMethod` for `region start - baseAddr`). -/
def subPtr (a b : Nat) : Nat := (a + (ptrW - b % ptrW)) % ptrW

/-- Writer state of one `PerfMap` instance: `m_FileStream` presence,
`m_ErrorEncountered`, `m_StubsMapped`, plus the two observable sinks:
`file` is the byte content written to the map file so far, and `perfInfo`
collects the entries delegated to the auxiliary `PerfInfo` recorder. -/
structure PerfMapState where
  fileStreamOpen : Bool
  errorEncountered : Bool
  stubsMapped : Nat
  file : String
  perfInfo : List String
  deriving DecidableEq

/-- PerfMap::WriteLine. The platform primitive writes `outCount` of the
requested `inCount = line.length` bytes; `shortBy = inCount - outCount`
(`0` is a full write). On a short write (`inCount != outCount`) it sets
`m_ErrorEncountered = true`. Note: the source checks neither `m_FileStream`
nor `m_ErrorEncountered` here; callers are expected to guard. -/
def WriteLine (s : PerfMapState) (line : String) (shortBy : Nat) : PerfMapState :=
  let inCount := line.length
  let outCount := inCount - shortBy
  let s1 := { s with file := s.file ++ String.mk (List.take outCount line.data) }
  if inCount ≠ outCount then { s1 with errorEncountered := true } else s1

/-- The line built by PerfMap::LogMethod:
`FMT_CODE_ADDR " %x %s"`, then `"[%s]\n"` appended when an optimization tier
was supplied and `s_ShowOptimizationTiers` is set, else a bare `"\n"`. -/
def methodLine (fmt : AddrFormat) (showTiers : Bool) (pCode codeSize : Nat)
    (fullMethodSignature : String) (optimizationTier : Option String) : String :=
  formatAddr fmt pCode ++ " " ++ hex32 codeSize ++ " " ++ fullMethodSignature ++
    (match optimizationTier with
     | some t => if showTiers then "[" ++ t ++ "]" ++ "\n" else "\n"
     | none => "\n")

/-- PerfMap::LogMethod: returns immediately when `m_FileStream == nullptr`
or `m_ErrorEncountered`; otherwise formats the line and calls `WriteLine`.
The method signature string supplied by the `MethodDesc` collaborator is the
`fullMethodSignature` input. -/
def LogMethod (fmt : AddrFormat) (showTiers : Bool) (s : PerfMapState)
    (fullMethodSignature : String) (pCode codeSize : Nat)
    (optimizationTier : Option String) (shortBy : Nat) : PerfMapState :=
  if !s.fileStreamOpen || s.errorEncountered then s
  else
    WriteLine s
      (methodLine fmt showTiers pCode codeSize fullMethodSignature optimizationTier)
      shortBy

/-- PerfMap::LogImage: returns immediately when `m_FileStream == nullptr` or
`m_ErrorEncountered`; otherwise delegates one entry to the auxiliary
`PerfInfo` recorder (perfinfo.cpp is not under `src/`, so the entry it would
format is abstracted as the `entry` input; it is recorded in a separate sink
and never touches the map file). -/
def LogImage (s : PerfMapState) (entry : String) : PerfMapState :=
  if !s.fileStreamOpen || s.errorEncountered then s
  else { s with perfInfo := s.perfInfo ++ [entry] }

/-- Process-wide statics of the live map: `s_Current` (the singleton, absent
before `Initialize` and after `Destroy`) and `s_ShowOptimizationTiers`. -/
structure GlobalState where
  current : Option PerfMapState
  showOptimizationTiers : Bool
  deriving DecidableEq

/-- PerfMap::LogJITCompiledMethod (static entry point): no-op when
`s_Current == nullptr`; resolves the optimization tier from the
`PrepareCodeConfig` collaborator only when `s_ShowOptimizationTiers` is set
(and the tier-resolution code is compiled out under `CROSSGEN_COMPILE`,
modelled by `crossgen`), then calls `LogMethod` on the singleton. -/
def LogJITCompiledMethod (fmt : AddrFormat) (crossgen : Bool) (g : GlobalState)
    (fullMethodSignature : String) (pCode codeSize : Nat)
    (tierFromConfig : Option String) (shortBy : Nat) : GlobalState :=
  match g.current with
  | none => g
  | some s =>
      let optimizationTier : Option String :=
        if !crossgen && g.showOptimizationTiers then tierFromConfig else none
      { g with
          current := some (LogMethod fmt g.showOptimizationTiers s
            fullMethodSignature pCode codeSize optimizationTier shortBy) }

/-- PerfMap::LogImageLoad (static entry point): no-op when
`s_Current == nullptr`, else delegates to `LogImage` on the singleton. -/
def LogImageLoad (g : GlobalState) (entry : String) : GlobalState :=
  match g.current with
  | none => g
  | some s => { g with current := some (LogImage s entry) }

/-- The two null-defaulting if statements at the top of PerfMap::LogStubs,
verbatim from the source: `if(!stubOwner) stubOwner = "?";` then
`if(!stubType) stubOwner = "?";` — note the second tests `stubType` but
assigns `stubOwner`. Returns the (kind, owner) pair actually formatted. -/
def stubDefaults (stubType stubOwner : Option String) :
    Option String × Option String :=
  let stubOwner1 := if stubOwner = none then some "?" else stubOwner
  let stubOwner2 := if stubType = none then some "?" else stubOwner1
  (stubType, stubOwner2)

/-- Rendering of a `%s` vararg that may still be the null pointer (reachable
in `LogStubs` because `stubType` is never replaced): passing null to `%s` is
undefined behaviour in C; glibc renders the text `"(null)"`, which is used
here as the marker for that outcome. -/
def renderCStr : Option String → String
  | some s => s
  | none => "(null)"

/-- The line built by PerfMap::LogStubs:
`FMT_CODE_ADDR " %x stub<%d> %s<%s>\n"` with the freshly incremented
`m_StubsMapped` value `n`, the stub kind and the stub owner. -/
def stubLine (fmt : AddrFormat) (pCode codeSize n : Nat)
    (stubType stubOwner : Option String) : String :=
  formatAddr fmt pCode ++ " " ++ hex32 codeSize ++ " stub<" ++ toString n ++
    "> " ++ renderCStr stubType ++ "<" ++ renderCStr stubOwner ++ ">" ++ "\n"

/-- PerfMap::LogStubs (static entry point): returns when
`s_Current == nullptr || s_Current->m_FileStream == nullptr` — note that,
unlike `LogMethod`, it does NOT test `m_ErrorEncountered`. Otherwise applies
the null-defaulting, pre-increments `m_StubsMapped`, formats the line with
the incremented value and writes it via `WriteLine`. -/
def LogStubs (fmt : AddrFormat) (g : GlobalState) (stubType stubOwner : Option String)
    (pCode codeSize : Nat) (shortBy : Nat) : GlobalState :=
  match g.current with
  | none => g
  | some s =>
      if !s.fileStreamOpen then g
      else
        let td := stubDefaults stubType stubOwner
        let s1 := { s with stubsMapped := s.stubsMapped + 1 }
        { g with
            current := some (WriteLine s1
              (stubLine fmt pCode codeSize s1.stubsMapped td.1 td.2) shortBy) }

/-- PerfMap::OpenFile: allocates a `CFileStream` and calls `OpenForWrite`;
on allocation failure or a failed HRESULT the stream is deleted and
`m_FileStream` left null. The combined outcome is the `openOk` input. -/
def OpenFile (s : PerfMapState) (openOk : Bool) : PerfMapState :=
  { s with fileStreamOpen := openOk }

/-- The live map file path built by PerfMap::PerfMap(int):
`"%Sperf-%d.map"` over the temp path and the process id. -/
def livePerfMapPath (tempPath : String) (pid : Nat) : String :=
  tempPath ++ "perf-" ++ toString pid ++ ".map"

/-- PerfMap::PerfMap(int pid): starts with `m_ErrorEncountered = false` and
`m_StubsMapped = 0`; if `GetTempPathW` fails it returns before `OpenFile`,
else it opens the derived path. Modelled from the spec: in the early-return
branch the stream member's value is fixed by spec sections 3 and 7 ("stream
is None exactly when open failed"), since the member declaration lives in
perfmap.h, which is not under `src/`. -/
def PerfMapInit (tempPathOk openOk : Bool) : PerfMapState :=
  let s : PerfMapState :=
    { fileStreamOpen := false, errorEncountered := false, stubsMapped := 0,
      file := "", perfInfo := [] }
  if !tempPathOk then s else OpenFile s openOk

/-- PerfMap::~PerfMap: deletes the file stream and nulls `m_FileStream`. -/
def PerfMapClose (s : PerfMapState) : PerfMapState :=
  { s with fileStreamOpen := false }

/-- PerfMap::Destroy: when the singleton exists, deletes it (running the
destructor) and nulls `s_Current`. -/
def Destroy (g : GlobalState) : GlobalState :=
  { g with current := none }

/-- PerfMap::Initialize: constructs the singleton only when the
`PerfMapEnabled` config flag reports enabled; derives the path from the
process id, opens the writer, and reads the show-tiers flag. -/
def Initialize (enabled tempPathOk openOk showTiersCfg : Bool) : GlobalState :=
  if enabled then
    { current := some (PerfMapInit tempPathOk openOk),
      showOptimizationTiers := showTiersCfg }
  else
    { current := none, showOptimizationTiers := false }

/-- PerfMap::GetNativeImageSignature: renders the module MVID via
`StringFromGUID2`; on failure the signature is the empty string. -/
def GetNativeImageSignature (guidOk : Bool) (guidStr : String) : String :=
  if guidOk then guidStr else ""

/-- The path built by NativeImagePerfMap::NativeImagePerfMap:
`"%S%s.ni.%S.map"` over destination path, assembly simple name and image
signature. -/
def nativeImagePerfMapPath (destPath simpleName signature : String) : String :=
  destPath ++ simpleName ++ ".ni." ++ signature ++ ".map"

/-- NativeImagePerfMap::NativeImagePerfMap: delegates to PerfMap() (null
stream, no error, counter 0, no PerfInfo recorder), computes the
deterministic destination path and opens it. Returns the instance state
and the path it opened. -/
def NativeImagePerfMapInit (destPath simpleName signature : String)
    (openOk : Bool) : PerfMapState × String :=
  let s : PerfMapState :=
    { fileStreamOpen := false, errorEncountered := false, stubsMapped := 0,
      file := "", perfInfo := [] }
  let path := nativeImagePerfMapPath destPath simpleName signature
  (OpenFile s openOk, path)

/-- `IJitManager::MethodRegionInfo`: hot and cold region of one precompiled
method, as returned by `EECodeInfo::GetMethodRegionInfo`. -/
structure MethodRegionInfo where
  hotStartAddress : Nat
  hotSize : Nat
  coldStartAddress : Nat
  coldSize : Nat
  deriving DecidableEq

/-- NativeImagePerfMap::LogPreCompiledMethod: emits the hot region when
`hotSize > 0` and the cold region when `coldSize > 0`, each at address
`region start - baseAddr` (unsigned pointer subtraction). `sbHot`/`sbCold`
are the write outcomes of the two potential `WriteLine` calls. -/
def LogPreCompiledMethod (fmt : AddrFormat) (showTiers : Bool) (s : PerfMapState)
    (fullMethodSignature : String) (mri : MethodRegionInfo) (baseAddr : Nat)
    (optimizationTier : Option String) (sbHot sbCold : Nat) : PerfMapState :=
  let s1 :=
    if mri.hotSize > 0 then
      LogMethod fmt showTiers s fullMethodSignature
        (subPtr mri.hotStartAddress baseAddr) mri.hotSize optimizationTier sbHot
    else s
  if mri.coldSize > 0 then
    LogMethod fmt showTiers s1 fullMethodSignature
      (subPtr mri.coldStartAddress baseAddr) mri.coldSize optimizationTier sbCold
  else s1

/-- One entry of the module's compiled-method table as the loader's iterator
exposes it: the method's signature text and its region info. -/
structure PreMethod where
  sig : String
  regions : MethodRegionInfo
  deriving DecidableEq

/-- The per-method loop shared by both branches of `LogDataForModule`: calls
`LogPreCompiledMethod` once per method in iterator order. `outs` supplies the
write outcomes per method (exhausted entries default to full writes). -/
def logMethodList (fmt : AddrFormat) (showTiers : Bool) (baseAddr : Nat)
    (optimizationTier : Option String) :
    PerfMapState → List PreMethod → List (Nat × Nat) → PerfMapState
  | s, [], _ => s
  | s, m :: ms, outs =>
      logMethodList fmt showTiers baseAddr optimizationTier
        (LogPreCompiledMethod fmt showTiers s m.sig m.regions baseAddr
          optimizationTier (outs.headD (0, 0)).1 (outs.headD (0, 0)).2)
        ms outs.tail

/-- NativeImagePerfMap::LogDataForModule: under `FEATURE_PREJIT`, a module
without a ReadyToRun header is walked with the legacy `MethodIterator` and a
null optimization tier; otherwise the `ReadyToRunInfo::MethodIterator` is
walked and every method is logged with the fixed marker `"ReadyToRun"` as
the tier argument. -/
def LogDataForModule (fmt : AddrFormat) (showTiers : Bool)
    (featurePrejit hasReadyToRunHeader : Bool) (s : PerfMapState)
    (baseAddr : Nat) (methods : List PreMethod) (outs : List (Nat × Nat)) :
    PerfMapState :=
  if featurePrejit && !hasReadyToRunHeader then
    logMethodList fmt showTiers baseAddr none s methods outs
  else
    logMethodList fmt showTiers baseAddr (some "ReadyToRun") s methods outs

/-- One call to the `LogStubs` entry point: its arguments and its write
outcome, used to replay a call sequence against the model. -/
structure StubCall where
  stubType : Option String
  stubOwner : Option String
  pCode : Nat
  codeSize : Nat
  shortBy : Nat
  deriving DecidableEq

/-- Replays a sequence of `LogStubs` calls, collecting the `m_StubsMapped`
value embedded in the line of each call that passes the entry guard
(singleton present and stream open). -/
def runStubs (fmt : AddrFormat) : GlobalState → List StubCall → GlobalState × List Nat
  | g, [] => (g, [])
  | g, c :: cs =>
      let g1 := LogStubs fmt g c.stubType c.stubOwner c.pCode c.codeSize c.shortBy
      let assigned : List Nat :=
        match g.current with
        | none => []
        | some s => if s.fileStreamOpen then [s.stubsMapped + 1] else []
      let r := runStubs fmt g1 cs
      (r.1, assigned ++ r.2)

/-- The bytes `LogPreCompiledMethod` appends for one method when no write
fails: one `methodLine` per non-empty region, hot region first. -/
def preRecords (fmt : AddrFormat) (showTiers : Bool) (baseAddr : Nat)
    (optimizationTier : Option String) (m : PreMethod) : String :=
  (if m.regions.hotSize > 0 then
      methodLine fmt showTiers (subPtr m.regions.hotStartAddress baseAddr)
        m.regions.hotSize m.sig optimizationTier
    else "") ++
  (if m.regions.coldSize > 0 then
      methodLine fmt showTiers (subPtr m.regions.coldStartAddress baseAddr)
        m.regions.coldSize m.sig optimizationTier
    else "")

/-! Helper lemmas. -/

lemma mk_take_length (l : String) : String.mk (List.take l.length l.data) = l := by
  cases l with
  | mk data => simp [String.length]

lemma WriteLine_full (s : PerfMapState) (line : String) :
    WriteLine s line 0 = { s with file := s.file ++ line } := by
  simp [WriteLine, mk_take_length]

lemma WriteLine_fileStreamOpen (s : PerfMapState) (line : String) (sb : Nat) :
    (WriteLine s line sb).fileStreamOpen = s.fileStreamOpen := by
  simp only [WriteLine]
  split <;> rfl

lemma WriteLine_stubsMapped (s : PerfMapState) (line : String) (sb : Nat) :
    (WriteLine s line sb).stubsMapped = s.stubsMapped := by
  simp only [WriteLine]
  split <;> rfl

lemma LogMethod_ok (fmt : AddrFormat) (showTiers : Bool) (s : PerfMapState)
    (sig : String) (pCode codeSize : Nat) (tier : Option String)
    (h1 : s.fileStreamOpen = true) (h2 : s.errorEncountered = false) :
    LogMethod fmt showTiers s sig pCode codeSize tier 0
      = { s with file := s.file ++ methodLine fmt showTiers pCode codeSize sig tier } := by
  simp [LogMethod, h1, h2, WriteLine_full]

/-! Claim theorems. -/

/-- C2 (code evaluated at the failing input): with a null `stubType`, the
null-defaulting in `LogStubs` does NOT replace the stub kind with `"?"` — it
overwrites the owner instead — so the kind passed to the formatter is still
the null pointer, contradicting the claim that each missing value is
replaced by `"?"`. The owner-only case does work as claimed. -/
theorem C2_stub_kind_not_defaulted :
    stubDefaults none (some "MyClass") = (none, some "?")
    ∧ (stubDefaults none (some "MyClass")).1 ≠ some "?"
    ∧ stubDefaults none none = (none, some "?")
    ∧ stubDefaults (some "DelegateStub") none = (some "DelegateStub", some "?")
    ∧ stubDefaults (some "DelegateStub") (some "MyClass")
        = (some "DelegateStub", some "MyClass") := by
  decide

/-- C5: the formatted method line is exactly
`<address> <size-in-hex> <label>[<tier_tag>]\n` when a tier tag is supplied
and tier display is enabled, and exactly `<address> <size-in-hex> <label>\n`
otherwise (tier null, or display disabled); `LogMethod` writes exactly this
line; and the spec's two end-to-end examples hold. -/
theorem C5_method_line_format (fmt : AddrFormat) (showTiers : Bool)
    (pCode codeSize : Nat) (sig t : String) (tier : Option String)
    (s : PerfMapState) (h1 : s.fileStreamOpen = true)
    (h2 : s.errorEncountered = false) :
    methodLine fmt true pCode codeSize sig (some t)
      = formatAddr fmt pCode ++ " " ++ hex32 codeSize ++ " " ++ sig
          ++ "[" ++ t ++ "]" ++ "\n"
    ∧ methodLine fmt false pCode codeSize sig tier
      = formatAddr fmt pCode ++ " " ++ hex32 codeSize ++ " " ++ sig ++ "\n"
    ∧ methodLine fmt showTiers pCode codeSize sig none
      = formatAddr fmt pCode ++ " " ++ hex32 codeSize ++ " " ++ sig ++ "\n"
    ∧ methodLine AddrFormat.native false 4096 32 "M.F()" none = "1000 20 M.F()\n"
    ∧ methodLine AddrFormat.native true 4096 32 "M.F()" (some "Tier1")
        = "1000 20 M.F()[Tier1]\n"
    ∧ LogMethod fmt showTiers s sig pCode codeSize tier 0
        = { s with file := s.file ++ methodLine fmt showTiers pCode codeSize sig tier } := by
  refine ⟨by simp [methodLine, String.append_assoc], ?_,
    by simp [methodLine], by decide, by decide, LogMethod_ok _ _ _ _ _ _ _ h1 h2⟩
  cases tier <;> simp [methodLine, String.append_assoc]

/-- C5 witness: the theorem applied at a concrete open, error-free state. -/
theorem C5_witness :
    (LogMethod AddrFormat.native true
      { fileStreamOpen := true, errorEncountered := false, stubsMapped := 0,
        file := "", perfInfo := [] }
      "M.F()" 4096 32 (some "Tier1") 0).file = "1000 20 M.F()[Tier1]\n" := by
  have h := C5_method_line_format AddrFormat.native true 4096 32 "M.F()" "Tier1"
    (some "Tier1")
    { fileStreamOpen := true, errorEncountered := false, stubsMapped := 0,
      file := "", perfInfo := [] } rfl rfl
  rw [h.2.2.2.2.2]
  decide

/-- C8: the ahead-of-time map path is the deterministic function
`<destination-dir><assembly-simple-name>.ni.<image-signature>.map` of the
constructor inputs, so two instances built from the same module identity,
destination directory and image signature compute identical paths
(independently of whether either open succeeds). -/
theorem C8_path_determinism (d1 d2 n1 n2 s1 s2 : String) (o1 o2 : Bool)
    (hd : d1 = d2) (hn : n1 = n2) (hs : s1 = s2) :
    nativeImagePerfMapPath d1 n1 s1 = nativeImagePerfMapPath d2 n2 s2
    ∧ nativeImagePerfMapPath d1 n1 s1 = d1 ++ n1 ++ ".ni." ++ s1 ++ ".map"
    ∧ (NativeImagePerfMapInit d1 n1 s1 o1).2 = (NativeImagePerfMapInit d2 n2 s2 o2).2 := by
  subst hd hn hs
  exact ⟨rfl, rfl, rfl⟩

/-- C8 witness: the theorem applied at a concrete module name, destination
directory and image signature. -/
theorem C8_witness :
    (NativeImagePerfMapInit "/tmp/" "mscorlib" "3ca05cf5-7fb0-4e23-9a2c-0000deadbeef" true).2
      = (NativeImagePerfMapInit "/tmp/" "mscorlib" "3ca05cf5-7fb0-4e23-9a2c-0000deadbeef" false).2 :=
  (C8_path_determinism "/tmp/" "/tmp/" "mscorlib" "mscorlib"
    "3ca05cf5-7fb0-4e23-9a2c-0000deadbeef" "3ca05cf5-7fb0-4e23-9a2c-0000deadbeef"
    true false rfl rfl rfl).2.2

/-- C9: every public logging entry point called with the singleton absent
(before `Initialize`, or after `Destroy`, which releases it) is a safe no-op
that changes no state and writes nothing, and further calls after `Destroy`
stay no-ops. -/
theorem C9_uninitialized_noop (fmt : AddrFormat) (crossgen : Bool)
    (g : GlobalState) (h : g.current = none) (sig entry : String)
    (pc cs sb pc2 cs2 sb2 : Nat) (tier st so : Option String) :
    LogJITCompiledMethod fmt crossgen g sig pc cs tier sb = g
    ∧ LogImageLoad g entry = g
    ∧ LogStubs fmt g st so pc2 cs2 sb2 = g
    ∧ (Destroy g).current = none
    ∧ LogJITCompiledMethod fmt crossgen (Destroy g) sig pc cs tier sb = Destroy g
    ∧ LogImageLoad (Destroy g) entry = Destroy g
    ∧ LogStubs fmt (Destroy g) st so pc2 cs2 sb2 = Destroy g := by
  refine ⟨?_, ?_, ?_, rfl, ?_, ?_, ?_⟩ <;>
    simp [LogJITCompiledMethod, LogImageLoad, LogStubs, Destroy, h]

/-- C9 witness: the theorem applied to the uninitialized global state. -/
theorem C9_witness :
    LogJITCompiledMethod AddrFormat.native false
        { current := none, showOptimizationTiers := false } "M.F()" 4096 32 none 0
      = { current := none, showOptimizationTiers := false }
    ∧ LogImageLoad { current := none, showOptimizationTiers := false } "img"
      = { current := none, showOptimizationTiers := false }
    ∧ LogStubs AddrFormat.native { current := none, showOptimizationTiers := false }
        (some "DelegateStub") (some "MyClass") 8192 16 0
      = { current := none, showOptimizationTiers := false } := by
  have h := C9_uninitialized_noop AddrFormat.native false
    { current := none, showOptimizationTiers := false } rfl "M.F()" "img"
    4096 32 0 8192 16 0 none (some "DelegateStub") (some "MyClass")
  exact ⟨h.1, h.2.1, h.2.2.1⟩

/-- C10: both the method line and the stub line depend on the code size only
through its value modulo `2 ^ 32` (the `%x` conversion consumes a 32-bit
unsigned value), and for any `codeSize ≥ 2 ^ 32` the emitted value
`codeSize % 2 ^ 32` differs from `codeSize` itself. -/
theorem C10_size_field_mod32 (fmt : AddrFormat) (showTiers : Bool)
    (pCode codeSize n : Nat) (sig : String) (tier t o : Option String) :
    methodLine fmt showTiers pCode codeSize sig tier
      = methodLine fmt showTiers pCode (codeSize % 2 ^ 32) sig tier
    ∧ stubLine fmt pCode codeSize n t o = stubLine fmt pCode (codeSize % 2 ^ 32) n t o
    ∧ (2 ^ 32 ≤ codeSize → codeSize % 2 ^ 32 ≠ codeSize) := by
  refine ⟨by simp [methodLine, hex32], by simp [stubLine, hex32], fun h => ?_⟩
  have h2 : codeSize % 2 ^ 32 < 2 ^ 32 := Nat.mod_lt _ (by norm_num)
  omega

/-- C10 witness: the theorem applied at `codeSize = 2 ^ 32 + 5`, a size whose
low 32 bits are `5`. -/
theorem C10_witness :
    2 ^ 32 ≤ 2 ^ 32 + 5 ∧ ((2 ^ 32 + 5) % 2 ^ 32 ≠ 2 ^ 32 + 5)
    ∧ methodLine AddrFormat.native false 4096 (2 ^ 32 + 5) "M.F()" none
        = methodLine AddrFormat.native false 4096 ((2 ^ 32 + 5) % 2 ^ 32) "M.F()" none := by
  have h := C10_size_field_mod32 AddrFormat.native false 4096 (2 ^ 32 + 5) 1
    "M.F()" none none none
  exact ⟨by norm_num, h.2.2 (by norm_num), h.1⟩

/-- C7: a failed setup (temp-path resolution failure or file-creation
failure) yields an instance whose stream is absent — the stream is present
exactly when both steps succeeded — every logging call on such an instance
is a no-op leaving the state untouched, its map file stays empty, and
shutdown (the destructor) also leaves the stream absent. -/
theorem C7_setup_failure_disabled (tempPathOk openOk : Bool) (fmt : AddrFormat)
    (showTiers : Bool) (s : PerfMapState) (hs : s.fileStreamOpen = false)
    (sig entry : String) (pc cs sb : Nat) (tier st so : Option String) :
    (PerfMapInit tempPathOk openOk).fileStreamOpen = (tempPathOk && openOk)
    ∧ (PerfMapClose s).fileStreamOpen = false
    ∧ LogMethod fmt showTiers s sig pc cs tier sb = s
    ∧ LogImage s entry = s
    ∧ LogStubs fmt { current := some s, showOptimizationTiers := showTiers } st so pc cs sb
        = { current := some s, showOptimizationTiers := showTiers }
    ∧ (PerfMapInit tempPathOk openOk).file = "" := by
  refine ⟨?_, rfl, ?_, ?_, ?_, ?_⟩
  · cases tempPathOk <;> cases openOk <;> rfl
  · simp [LogMethod, hs]
  · simp [LogImage, hs]
  · simp [LogStubs, hs]
  · cases tempPathOk <;> cases openOk <;> rfl

/-- C7 witness: the theorem applied to the instance whose temp-path
resolution failed. -/
theorem C7_witness :
    (PerfMapInit false true).fileStreamOpen = (false && true)
    ∧ LogMethod AddrFormat.native false (PerfMapInit false true) "M.F()" 4096 32 none 0
        = PerfMapInit false true
    ∧ (PerfMapInit false true).file = "" := by
  have h := C7_setup_failure_disabled false true AddrFormat.native false
    (PerfMapInit false true) rfl "M.F()" "img" 4096 32 0 none none none
  exact ⟨h.1, h.2.2.1, h.2.2.2.2.2⟩

lemma runStubs_counters (fmt : AddrFormat) (calls : List StubCall) :
    ∀ (g : GlobalState) (s : PerfMapState), g.current = some s →
      s.fileStreamOpen = true →
      (runStubs fmt g calls).2 = List.range' (s.stubsMapped + 1) calls.length := by
  induction calls with
  | nil => intro g s hg hs; rfl
  | cons c cs ih =>
      intro g s hg hs
      have hstep : LogStubs fmt g c.stubType c.stubOwner c.pCode c.codeSize c.shortBy
          = { g with current := some (WriteLine { s with stubsMapped := s.stubsMapped + 1 }
              (stubLine fmt c.pCode c.codeSize (s.stubsMapped + 1)
                (stubDefaults c.stubType c.stubOwner).1
                (stubDefaults c.stubType c.stubOwner).2) c.shortBy) } := by
        simp [LogStubs, hg, hs]
      have hrec := ih (LogStubs fmt g c.stubType c.stubOwner c.pCode c.codeSize c.shortBy)
        (WriteLine { s with stubsMapped := s.stubsMapped + 1 }
          (stubLine fmt c.pCode c.codeSize (s.stubsMapped + 1)
            (stubDefaults c.stubType c.stubOwner).1
            (stubDefaults c.stubType c.stubOwner).2) c.shortBy)
        (by rw [hstep]) (by rw [WriteLine_fileStreamOpen]; exact hs)
      rw [WriteLine_stubsMapped] at hrec
      simp only [runStubs, hg, hs, List.length_cons, List.range'_succ, if_true,
        List.singleton_append]
      rw [hrec]

/-- C4: `m_StubsMapped` starts at zero in a fresh instance and `LogStubs`
allocates by pre-increment, so across any sequence of `N` calls that pass
the entry guard (singleton present, stream open — note the guard ignores the
error flag) the counter values embedded in the lines are exactly `1..N` in
call order: monotonically increasing and never reused, regardless of the
write outcomes of the individual calls. -/
theorem C4_stub_counter_sequence (fmt : AddrFormat) (tempPathOk openOk : Bool)
    (g : GlobalState) (s : PerfMapState) (calls : List StubCall)
    (hg : g.current = some s) (hs : s.fileStreamOpen = true)
    (h0 : s.stubsMapped = 0) :
    (PerfMapInit tempPathOk openOk).stubsMapped = 0
    ∧ (runStubs fmt g calls).2 = List.range' 1 calls.length := by
  constructor
  · cases tempPathOk <;> cases openOk <;> rfl
  · have h := runStubs_counters fmt calls g s hg hs
    rwa [h0] at h

/-- C4 witness: two guarded stub logs on a fresh live map receive counters
`1` and `2` in call order. -/
theorem C4_witness :
    (runStubs AddrFormat.native
      { current := some (PerfMapInit true true), showOptimizationTiers := false }
      [ { stubType := some "DelegateStub", stubOwner := some "MyClass", pCode := 8192, codeSize := 16, shortBy := 0 },
        { stubType := some "DelegateStub", stubOwner := some "MyClass", pCode := 8208, codeSize := 16, shortBy := 0 } ]).2
      = [1, 2]
    ∧ (runStubs AddrFormat.native
      { current := some (PerfMapInit true true), showOptimizationTiers := false }
      [ { stubType := some "DelegateStub", stubOwner := some "MyClass", pCode := 8192, codeSize := 16, shortBy := 0 },
        { stubType := some "DelegateStub", stubOwner := some "MyClass", pCode := 8208, codeSize := 16, shortBy := 0 } ]).1
      = { current := some { fileStreamOpen := true, errorEncountered := false, stubsMapped := 2, file := "2000 10 stub<1> DelegateStub<MyClass>\n2010 10 stub<2> DelegateStub<MyClass>\n", perfInfo := [] }, showOptimizationTiers := false } := by
  have h := C4_stub_counter_sequence AddrFormat.native true true
    { current := some (PerfMapInit true true), showOptimizationTiers := false }
    (PerfMapInit true true)
    [ { stubType := some "DelegateStub", stubOwner := some "MyClass", pCode := 8192, codeSize := 16, shortBy := 0 },
      { stubType := some "DelegateStub", stubOwner := some "MyClass", pCode := 8208, codeSize := 16, shortBy := 0 } ] rfl rfl rfl
  exact ⟨by rw [h.2]; decide, by decide⟩

/-- C1 (code evaluated at the failing input): a short write during a method
log latches `m_ErrorEncountered` permanently, and subsequent
`LogJITCompiledMethod` / `LogImageLoad` calls are no-ops — but a subsequent
`LogStubs` call still appends a full line to the file, because neither
`LogStubs` nor `WriteLine` tests the error flag. This contradicts the claim
(and the source's own comment "This will cause us to stop writing to the
file"). -/
theorem C1_sticky_error_stub_bug :
    LogJITCompiledMethod AddrFormat.native false
        { current := some (PerfMapInit true true), showOptimizationTiers := false }
        "M.F()" 4096 32 none 1
      = { current := some { fileStreamOpen := true, errorEncountered := true, stubsMapped := 0, file := "1000 20 M.F()", perfInfo := [] }, showOptimizationTiers := false }
    ∧ LogJITCompiledMethod AddrFormat.native false
        { current := some { fileStreamOpen := true, errorEncountered := true, stubsMapped := 0, file := "1000 20 M.F()", perfInfo := [] }, showOptimizationTiers := false }
        "G.H()" 8192 16 none 0
      = { current := some { fileStreamOpen := true, errorEncountered := true, stubsMapped := 0, file := "1000 20 M.F()", perfInfo := [] }, showOptimizationTiers := false }
    ∧ LogImageLoad
        { current := some { fileStreamOpen := true, errorEncountered := true, stubsMapped := 0, file := "1000 20 M.F()", perfInfo := [] }, showOptimizationTiers := false }
        "img"
      = { current := some { fileStreamOpen := true, errorEncountered := true, stubsMapped := 0, file := "1000 20 M.F()", perfInfo := [] }, showOptimizationTiers := false }
    ∧ LogStubs AddrFormat.native
        { current := some { fileStreamOpen := true, errorEncountered := true, stubsMapped := 0, file := "1000 20 M.F()", perfInfo := [] }, showOptimizationTiers := false }
        (some "DelegateStub") (some "MyClass") 8192 16 0
      = { current := some { fileStreamOpen := true, errorEncountered := true, stubsMapped := 1, file := "1000 20 M.F()2000 10 stub<1> DelegateStub<MyClass>\n", perfInfo := [] }, showOptimizationTiers := false }
    ∧ ("1000 20 M.F()2000 10 stub<1> DelegateStub<MyClass>\n" : String)
        ≠ "1000 20 M.F()" := by
  refine ⟨by decide, by decide, by decide, by decide, by decide⟩

lemma subPtr_eq_sub (a b : Nat) (hb : b ≤ a) (ha : a < 2 ^ 64) :
    subPtr a b = a - b := by
  have hw : ptrW = 18446744073709551616 := by norm_num [ptrW]
  have ha2 : a < 18446744073709551616 := by
    have : (2:Nat) ^ 64 = 18446744073709551616 := by norm_num
    omega
  unfold subPtr
  rw [hw]
  omega

lemma LogPreCompiledMethod_ok (fmt : AddrFormat) (showTiers : Bool)
    (s : PerfMapState) (sig : String) (mri : MethodRegionInfo) (base : Nat)
    (tier : Option String) (h1 : s.fileStreamOpen = true)
    (h2 : s.errorEncountered = false) :
    LogPreCompiledMethod fmt showTiers s sig mri base tier 0 0
      = { s with file := s.file ++ preRecords fmt showTiers base tier ⟨sig, mri⟩ } := by
  obtain ⟨o, e, n, f, p⟩ := s
  replace h1 : o = true := h1
  replace h2 : e = false := h2
  subst h1
  subst h2
  unfold LogPreCompiledMethod preRecords
  by_cases hh : mri.hotSize > 0 <;> by_cases hc : mri.coldSize > 0 <;>
    simp [hh, hc, LogMethod_ok, String.append_assoc, String.append_empty]

/-- C3: in ahead-of-time mode, for a method with hot size `H` and cold size
`C`, `LogPreCompiledMethod` appends exactly one record per non-empty region
(two when `H > 0` and `C > 0`, one when exactly one is positive, none when
both are zero), and each record's logged address is the region's start
address minus the module's load base. -/
theorem C3_hot_cold_records (fmt : AddrFormat) (showTiers : Bool)
    (s : PerfMapState) (sig : String) (mri : MethodRegionInfo) (base : Nat)
    (tier : Option String) (h1 : s.fileStreamOpen = true)
    (h2 : s.errorEncountered = false)
    (hhb : base ≤ mri.hotStartAddress) (hhw : mri.hotStartAddress < 2 ^ 64)
    (hcb : base ≤ mri.coldStartAddress) (hcw : mri.coldStartAddress < 2 ^ 64) :
    (LogPreCompiledMethod fmt showTiers s sig mri base tier 0 0).file
      = s.file
        ++ ((if 0 < mri.hotSize then
              methodLine fmt showTiers (mri.hotStartAddress - base) mri.hotSize sig tier
            else "")
        ++ (if 0 < mri.coldSize then
              methodLine fmt showTiers (mri.coldStartAddress - base) mri.coldSize sig tier
            else "")) := by
  rw [LogPreCompiledMethod_ok fmt showTiers s sig mri base tier h1 h2]
  simp [preRecords, subPtr_eq_sub _ _ hhb hhw, subPtr_eq_sub _ _ hcb hcw]

/-- C3 witness: a method with non-empty hot and cold regions produces
exactly the two records, at `hot_start - base` and `cold_start - base`. -/
theorem C3_witness :
    (LogPreCompiledMethod AddrFormat.fixed32 false
      { fileStreamOpen := true, errorEncountered := false, stubsMapped := 0,
        file := "", perfInfo := [] }
      "M.F()"
      { hotStartAddress := 4352, hotSize := 32, coldStartAddress := 8448,
        coldSize := 16 } 4096 none 0 0).file
      = "00000100 20 M.F()\n00001100 10 M.F()\n" := by
  have h := C3_hot_cold_records AddrFormat.fixed32 false
    { fileStreamOpen := true, errorEncountered := false, stubsMapped := 0,
      file := "", perfInfo := [] }
    "M.F()"
    { hotStartAddress := 4352, hotSize := 32, coldStartAddress := 8448,
      coldSize := 16 } 4096 none rfl rfl (by norm_num) (by norm_num)
    (by norm_num) (by norm_num)
  rw [h]
  decide

/-- C6 counterexample: with tier display disabled (the default — nothing in
the crossgen path sets `s_ShowOptimizationTiers`), a module walked through
the ReadyToRun branch of `LogDataForModule` emits a record with NO marker
tag: the `"ReadyToRun"` string is passed as the tier argument, but
`LogMethod` drops it because `s_ShowOptimizationTiers` is false, refuting
the claim that every emitted record is tagged with the marker. -/
theorem C6_counterexample :
    (LogDataForModule AddrFormat.fixed32 false true true
        { fileStreamOpen := true, errorEncountered := false, stubsMapped := 0, file := "", perfInfo := [] }
        4096
        [ { sig := "M.F()", regions := { hotStartAddress := 4352, hotSize := 32, coldStartAddress := 0, coldSize := 0 } } ]
        []).file
      = "00000100 20 M.F()\n"
    ∧ (LogDataForModule AddrFormat.fixed32 false true true
        { fileStreamOpen := true, errorEncountered := false, stubsMapped := 0, file := "", perfInfo := [] }
        4096
        [ { sig := "M.F()", regions := { hotStartAddress := 4352, hotSize := 32, coldStartAddress := 0, coldSize := 0 } } ]
        []).file
      ≠ "00000100 20 M.F()[ReadyToRun]\n" := by
  exact ⟨by decide, by decide⟩

lemma logMethodList_ok (fmt : AddrFormat) (showTiers : Bool) (base : Nat)
    (tier : Option String) (methods : List PreMethod) :
    ∀ (s : PerfMapState), s.fileStreamOpen = true → s.errorEncountered = false →
      logMethodList fmt showTiers base tier s methods []
        = { s with file := s.file ++ methods.foldr (fun m acc => preRecords fmt showTiers base tier m ++ acc) "" } := by
  induction methods with
  | nil =>
      intro s h1 h2
      simp [logMethodList, String.append_empty]
  | cons m ms ih =>
      intro s h1 h2
      have hstep := LogPreCompiledMethod_ok fmt showTiers s m.sig m.regions base tier h1 h2
      have hrec := ih { s with file := s.file ++ preRecords fmt showTiers base tier m }
        h1 h2
      simp only [logMethodList, List.headD_nil, List.tail_nil]
      rw [hstep]
      rw [hrec]
      simp [String.append_assoc]

/-- C6 (amended): in ahead-of-time mode with region metadata, the ReadyToRun
branch of `LogDataForModule` passes the fixed marker string `"ReadyToRun"`
as the tier of every emitted record; the emitted record carries the
`[ReadyToRun]` tag exactly when tier display is enabled (shown here for the
enabled case; the counterexample shows the tag is dropped otherwise). -/
theorem C6_readytorun_tag (fmt : AddrFormat) (featurePrejit : Bool)
    (s : PerfMapState) (base : Nat) (methods : List PreMethod)
    (h1 : s.fileStreamOpen = true) (h2 : s.errorEncountered = false) :
    LogDataForModule fmt true featurePrejit true s base methods []
      = { s with file := s.file ++ methods.foldr (fun m acc => preRecords fmt true base (some "ReadyToRun") m ++ acc) "" }
    ∧ methodLine AddrFormat.fixed32 true 256 32 "M.F()" (some "ReadyToRun")
        = "00000100 20 M.F()[ReadyToRun]\n" := by
  constructor
  · have hbr : LogDataForModule fmt true featurePrejit true s base methods []
        = logMethodList fmt true base (some "ReadyToRun") s methods [] := by
      simp [LogDataForModule]
    rw [hbr, logMethodList_ok fmt true base (some "ReadyToRun") methods s h1 h2]
  · decide

/-- C6 witness: the amended theorem applied with tier display enabled —
the single record carries the `[ReadyToRun]` tag. -/
theorem C6_witness :
    (LogDataForModule AddrFormat.fixed32 true true true
        { fileStreamOpen := true, errorEncountered := false, stubsMapped := 0, file := "", perfInfo := [] }
        4096
        [ { sig := "M.F()", regions := { hotStartAddress := 4352, hotSize := 32, coldStartAddress := 0, coldSize := 0 } } ]
        []).file
      = "00000100 20 M.F()[ReadyToRun]\n" := by
  have h := C6_readytorun_tag AddrFormat.fixed32 true
    { fileStreamOpen := true, errorEncountered := false, stubsMapped := 0, file := "", perfInfo := [] }
    4096
    [ { sig := "M.F()", regions := { hotStartAddress := 4352, hotSize := 32, coldStartAddress := 0, coldSize := 0 } } ]
    rfl rfl
  rw [h.1]
  decide
